import Mathlib

/-!
Shallow embedding of the codeceptjs MailSlurp helper
(`src/index.js` and the TypeScript variant `src/unnamed/part_002`).

The helper is a thin fixture around an opaque mailbox provider: it keeps a
per-test state (created mailboxes, current mailbox, current email), translates
field queries into the provider's match-rule format (`matchEmailBy`), forwards
wait/grab calls with a resolved timeout, and offers content assertions over
the currently opened email.

Provider responses are modelled as pure functions packaged in a `Provider`
record; every helper operation additionally returns the list of provider RPC
calls it issued, so that claims about "what is passed to the provider" are
statable.  JavaScript runtime errors (property access on `null`/`undefined`)
are modelled by `Err.typeError`; a rejected provider promise is an `Err`
carried through `Except`.
-/

namespace MailSlurpHelper

structure Inbox where
  id : String
  emailAddress : String
deriving Repr, DecidableEq

structure Email where
  id : String
  subject : String
  body : String
  from_ : String
  attachments : List String
deriving Repr, DecidableEq

structure Preview where
  id : String
deriving Repr, DecidableEq

structure AttachmentMeta where
  name : String
deriving Repr, DecidableEq

structure MatchRule where
  field : String
  value : String
  should : String
deriving Repr, DecidableEq

structure MatchSpec where
  matches_ : List MatchRule
deriving Repr, DecidableEq

structure Config where
  timeout : Nat
  debug : Bool
deriving Repr, DecidableEq

/-- Objectassign of the constructor defaults with the user config:
`timeout` defaults to 10000, `debug` to `false`. -/
def mkConfig (userTimeout : Option Nat) (userDebug : Option Bool) : Config :=
  ⟨userTimeout.getD 10000, userDebug.getD false⟩

structure HelperState where
  config : Config
  mailboxes : List Inbox
  currentMailbox : Option Inbox
  currentEmail : Option Email
deriving Repr, DecidableEq

inductive Err where
  | noOpenMessage
  | missingParameter
  | typeError
  | timeoutErr
  | assertionFailed (msg : String)
  | providerError (msg : String)
deriving Repr, DecidableEq

inductive RpcCall where
  | createInboxCall
  | getInboxCall (id : String)
  | deleteInboxCall (id : String)
  | waitLatestCall (inboxId : String) (timeoutMs : Nat)
  | waitMatchingCall (spec : MatchSpec) (count : Nat) (inboxId : String) (timeoutMs : Nat)
  | waitNthCall (inboxId : String) (n : Nat) (timeoutMs : Nat)
  | getEmailsCall (inboxId : String)
  | getEmailCall (id : String)
  | getAttachmentMetaCall (attachmentId : String) (emailId : String)
deriving Repr, DecidableEq

instance {ε α : Type} [DecidableEq ε] [DecidableEq α] : DecidableEq (Except ε α) :=
  fun a b =>
    match a, b with
    | .error e1, .error e2 =>
      if h : e1 = e2 then isTrue (by rw [h])
      else isFalse (by intro hh; injection hh; exact h (by assumption))
    | .ok a1, .ok a2 =>
      if h : a1 = a2 then isTrue (by rw [h])
      else isFalse (by intro hh; injection hh; exact h (by assumption))
    | .error _, .ok _ => isFalse (by intro hh; cases hh)
    | .ok _, .error _ => isFalse (by intro hh; cases hh)

structure Provider where
  createInbox : Except Err Inbox
  getInbox : String → Except Err Inbox
  deleteInbox : String → Except Err Unit
  waitForLatestEmail : String → Nat → Except Err Email
  waitForMatchingEmails : MatchSpec → Nat → String → Nat → Except Err (List Preview)
  waitForNthEmail : String → Nat → Nat → Except Err Email
  getEmails : String → Except Err (List Preview)
  getEmail : String → Except Err Email
  getAttachmentMetaData : String → String → Except Err AttachmentMeta

/-- `key.toUpperCase()`: upper-case every character (the query keys are the
plain ASCII field names from, to, subject, cc, bcc). -/
def strToUpper (s : String) : String :=
  ⟨s.data.map Char.toUpper⟩

/-- `function matchEmailBy(options)`: one rule per entry of the query object
(`Object.entries` iterates string keys in insertion order); the field key is
upper-cased; the rule is EQUAL when the first character of the value is the
character `=` (JavaScript `value[0] === '='`; for the empty string `value[0]`
is `undefined`, hence CONTAIN), else CONTAIN; the value is passed through
unchanged in both cases. -/
def matchEmailBy (options : List (String × String)) : MatchSpec :=
  ⟨options.map fun kv =>
    if kv.2.data.head? = some '=' then
      ⟨strToUpper kv.1, kv.2, "EQUAL"⟩
    else
      ⟨strToUpper kv.1, kv.2, "CONTAIN"⟩⟩

/-- `if (sec) sec = 1000*sec;` followed by `sec || this.config.timeout`:
a missing or zero (falsy) `sec` yields the configured timeout, a nonzero
`sec` yields `1000 * sec`. -/
def resolveTimeout (sec : Option Nat) (cfgTimeout : Nat) : Nat :=
  let sec2 : Option Nat :=
    match sec with
    | some s => if s = 0 then some s else some (1000 * s)
    | none => none
  match sec2 with
  | some s => if s = 0 then cfgTimeout else s
  | none => cfgTimeout

/-- Result of a helper operation: outcome, post-state, provider RPC trace. -/
abbrev OpResult (α : Type) := Except Err α × HelperState × List RpcCall

/-- `_before()`: reset the fixture state. -/
def _before (st : HelperState) : HelperState :=
  ⟨st.config, [], none, none⟩

/-- `openEmail(email)`. -/
def openEmail (st : HelperState) (email : Email) : HelperState :=
  ⟨st.config, st.mailboxes, st.currentMailbox, some email⟩

/-- `openMailbox(mailbox)`. -/
def openMailbox (st : HelperState) (mailbox : Inbox) : HelperState :=
  ⟨st.config, st.mailboxes, some mailbox, st.currentEmail⟩

/-- `haveNewMailbox()`: create an inbox, record it, make it current. -/
def haveNewMailbox (p : Provider) (st : HelperState) : OpResult Inbox :=
  match p.createInbox with
  | .error e => (.error e, st, [.createInboxCall])
  | .ok inbox =>
    (.ok inbox, ⟨st.config, st.mailboxes ++ [inbox], some inbox, st.currentEmail⟩,
      [.createInboxCall])

/-- A JavaScript falsy string argument: absent (`undefined`) or empty. -/
def falsyStr : Option String → Bool
  | none => true
  | some s => s.isEmpty

/-- `haveExistingMailbox(mailboxId)`: reject a falsy id before any provider
call; otherwise fetch the inbox, append it to the recorded mailboxes and make
it current. -/
def haveExistingMailbox (p : Provider) (st : HelperState) (mailboxId : Option String) :
    OpResult Inbox :=
  if falsyStr mailboxId then (.error .missingParameter, st, [])
  else
    let mid := mailboxId.getD ""
    match p.getInbox mid with
    | .error e => (.error e, st, [.getInboxCall mid])
    | .ok inbox =>
      (.ok inbox, ⟨st.config, st.mailboxes ++ [inbox], some inbox, st.currentEmail⟩,
        [.getInboxCall mid])

/-- First rejection among the deletion promises, in array order. -/
def firstErr : List (Except Err Unit) → Option Err
  | [] => none
  | .error e :: _ => some e
  | .ok _ :: rest => firstErr rest

/-- `_after()`: early return when no mailbox is recorded; otherwise start a
`deleteInbox` call for every recorded mailbox (all promises are created by
`map` before `Promise.all` is awaited, so every deletion is attempted), and
only when all of them succeed clear the fixture state; a rejection propagates
and the statements clearing the state never run. -/
def _after (p : Provider) (st : HelperState) : OpResult Unit :=
  if st.mailboxes.isEmpty then (.ok (), st, [])
  else
    let calls := st.mailboxes.map fun m => RpcCall.deleteInboxCall m.id
    match firstErr (st.mailboxes.map fun m => p.deleteInbox m.id) with
    | some e => (.error e, st, calls)
    | none => (.ok (), ⟨st.config, [], none, none⟩, calls)

/-- `waitForLatestEmail(sec)`: forwards the current mailbox id and the
resolved timeout, then records the returned email as current. -/
def waitForLatestEmail (p : Provider) (st : HelperState) (sec : Option Nat) :
    OpResult Email :=
  match st.currentMailbox with
  | none => (.error .typeError, st, [])
  | some mb =>
    match p.waitForLatestEmail mb.id (resolveTimeout sec st.config.timeout) with
    | .error e =>
      (.error e, st, [.waitLatestCall mb.id (resolveTimeout sec st.config.timeout)])
    | .ok email =>
      (.ok email, ⟨st.config, st.mailboxes, st.currentMailbox, some email⟩,
        [.waitLatestCall mb.id (resolveTimeout sec st.config.timeout)])

/-- `waitForNthEmail(number, sec)`. -/
def waitForNthEmail (p : Provider) (st : HelperState) (number : Nat) (sec : Option Nat) :
    OpResult Email :=
  match st.currentMailbox with
  | none => (.error .typeError, st, [])
  | some mb =>
    match p.waitForNthEmail mb.id number (resolveTimeout sec st.config.timeout) with
    | .error e =>
      (.error e, st, [.waitNthCall mb.id number (resolveTimeout sec st.config.timeout)])
    | .ok email =>
      (.ok email, ⟨st.config, st.mailboxes, st.currentMailbox, some email⟩,
        [.waitNthCall mb.id number (resolveTimeout sec st.config.timeout)])

/-- `waitForEmailMatching(query, sec)`: asks the provider for exactly 1
preview matching the translated query, then dereferences `emailPreviews[0]`
unconditionally (`Err.typeError` on an empty array) and resolves the full
email, recording it as current. -/
def waitForEmailMatching (p : Provider) (st : HelperState)
    (query : List (String × String)) (sec : Option Nat) : OpResult Email :=
  match st.currentMailbox with
  | none => (.error .typeError, st, [])
  | some mb =>
    match p.waitForMatchingEmails (matchEmailBy query) 1 mb.id
        (resolveTimeout sec st.config.timeout) with
    | .error e =>
      (.error e, st,
        [.waitMatchingCall (matchEmailBy query) 1 mb.id
          (resolveTimeout sec st.config.timeout)])
    | .ok [] =>
      (.error .typeError, st,
        [.waitMatchingCall (matchEmailBy query) 1 mb.id
          (resolveTimeout sec st.config.timeout)])
    | .ok (pv :: _) =>
      match p.getEmail pv.id with
      | .error e =>
        (.error e, st,
          [.waitMatchingCall (matchEmailBy query) 1 mb.id
            (resolveTimeout sec st.config.timeout), .getEmailCall pv.id])
      | .ok email =>
        (.ok email, ⟨st.config, st.mailboxes, st.currentMailbox, some email⟩,
          [.waitMatchingCall (matchEmailBy query) 1 mb.id
            (resolveTimeout sec st.config.timeout), .getEmailCall pv.id])

/-- `Promise.all(emailPreviews.map(e => this.mailslurp.getEmail(e.id)))`:
every preview is resolved; the first rejection (in array order) wins. -/
def resolveAll (p : Provider) : List Preview → Except Err (List Email) × List RpcCall
  | [] => (.ok [], [])
  | pv :: rest =>
    let tail := resolveAll p rest
    let r : Except Err (List Email) :=
      match p.getEmail pv.id, tail.1 with
      | .error e, _ => .error e
      | .ok _, .error e => .error e
      | .ok e, .ok es => .ok (e :: es)
    (r, .getEmailCall pv.id :: tail.2)

/-- `grabEmailsMatching(query, num)`: same matching call but with the caller
count and always the configured timeout; resolves every preview; does not
touch the fixture state. -/
def grabEmailsMatching (p : Provider) (st : HelperState)
    (query : List (String × String)) (num : Nat) : OpResult (List Email) :=
  match st.currentMailbox with
  | none => (.error .typeError, st, [])
  | some mb =>
    let c1 := RpcCall.waitMatchingCall (matchEmailBy query) num mb.id st.config.timeout
    match p.waitForMatchingEmails (matchEmailBy query) num mb.id st.config.timeout with
    | .error e => (.error e, st, [c1])
    | .ok previews =>
      let res := resolveAll p previews
      (res.1, st, c1 :: res.2)

/-- `grabAllEmailsFromMailbox()`: list all previews, resolve each; does not
touch the fixture state. -/
def grabAllEmailsFromMailbox (p : Provider) (st : HelperState) : OpResult (List Email) :=
  match st.currentMailbox with
  | none => (.error .typeError, st, [])
  | some mb =>
    match p.getEmails mb.id with
    | .error e => (.error e, st, [.getEmailsCall mb.id])
    | .ok previews =>
      let res := resolveAll p previews
      (res.1, st, .getEmailsCall mb.id :: res.2)

/-- Executable substring test over character lists: some suffix of the
haystack starts with the needle. -/
def hasSubList (needle : List Char) : List Char → Bool
  | [] => needle.isEmpty
  | c :: rest => needle.isPrefixOf (c :: rest) || hasSubList needle rest

/-- Substring containment, the semantics of the `toContain` matcher on
strings. -/
def strContains (haystack needle : String) : Bool :=
  hasSubList needle.data haystack.data

/-- `_hasCurrentEmail()`: throw when no email is opened. -/
def _hasCurrentEmail (st : HelperState) : Except Err Unit :=
  match st.currentEmail with
  | none => .error .noOpenMessage
  | some _ => .ok ()

/-- `seeInEmailSubject(text)`. -/
def seeInEmailSubject (st : HelperState) (text : String) : Except Err Unit :=
  match st.currentEmail with
  | none => .error .noOpenMessage
  | some email =>
    if strContains email.subject text then .ok ()
    else .error (.assertionFailed "expected email subject to contain text")

/-- `dontSeeInEmailSubject(text)`. -/
def dontSeeInEmailSubject (st : HelperState) (text : String) : Except Err Unit :=
  match st.currentEmail with
  | none => .error .noOpenMessage
  | some email =>
    if strContains email.subject text then
      .error (.assertionFailed "expected email subject not to contain text")
    else .ok ()

/-- `seeInEmailBody(text)`. -/
def seeInEmailBody (st : HelperState) (text : String) : Except Err Unit :=
  match st.currentEmail with
  | none => .error .noOpenMessage
  | some email =>
    if strContains email.body text then .ok ()
    else .error (.assertionFailed "expected email body to contain text")

/-- `dontSeeInEmailBody(text)`. -/
def dontSeeInEmailBody (st : HelperState) (text : String) : Except Err Unit :=
  match st.currentEmail with
  | none => .error .noOpenMessage
  | some email =>
    if strContains email.body text then
      .error (.assertionFailed "expected email body not to contain text")
    else .ok ()

/-- `seeEmailIsFrom(text)`. -/
def seeEmailIsFrom (st : HelperState) (text : String) : Except Err Unit :=
  match st.currentEmail with
  | none => .error .noOpenMessage
  | some email =>
    if strContains email.from_ text then .ok ()
    else .error (.assertionFailed "expected email from to contain text")

/-- `seeEmailSubjectEquals(text)`. -/
def seeEmailSubjectEquals (st : HelperState) (text : String) : Except Err Unit :=
  match st.currentEmail with
  | none => .error .noOpenMessage
  | some email =>
    if email.subject = text then .ok ()
    else .error (.assertionFailed "expected email subject to equal text")

/-- `dontSeeEmailSubjectEquals(text)`. -/
def dontSeeEmailSubjectEquals (st : HelperState) (text : String) : Except Err Unit :=
  match st.currentEmail with
  | none => .error .noOpenMessage
  | some email =>
    if email.subject = text then
      .error (.assertionFailed "expected email subject not to equal text")
    else .ok ()

/-- `seeNumberOfEmailAttachments(number)`. -/
def seeNumberOfEmailAttachments (st : HelperState) (number : Nat) : Except Err Unit :=
  match st.currentEmail with
  | none => .error .noOpenMessage
  | some email =>
    if email.attachments.length = number then .ok ()
    else .error (.assertionFailed "expected attachment count to equal number")

/-- `Array.prototype.join(',')` on the collected attachment names. -/
def joinComma : List String → String
  | [] => ""
  | [x] => x
  | x :: y :: rest => x ++ "," ++ joinComma (y :: rest)

/-- The assertion-failure message of `seeEmailAttachment`: names the pattern
and the subject searched, and either lists every collected attachment name
(joined by commas) or states that no attachment was found at all. -/
def attachmentFailMsg (nameRegExp subject : String) (found : List String) : String :=
  "Attachment with name \"" ++ nameRegExp ++ "\" not found in e-mail with subject \""
    ++ subject ++ "\"."
    ++ (if found.length > 0 then
          " Found attachments: \"" ++ joinComma found ++ "\""
        else " No attachments found at all in e-mail.")

/-- The `for (let attachmentId of email.attachments)` loop of
`seeEmailAttachment`: resolve the metadata of each attachment id in order;
return as soon as one resolved name matches (nothing further is resolved);
otherwise collect the resolved name and continue, and when the loop is
exhausted fail with the message built from the pattern, the subject and the
collected names.  `nameMatch` is the truthiness of
`name.match(new RegExp(nameRegExp))` — the regex engine is opaque here. -/
def attachmentLoop (p : Provider) (nameMatch : String → String → Bool)
    (emailId subject nameRegExp : String) :
    List String → List String → Except Err Unit × List RpcCall
  | [], found => (.error (.assertionFailed (attachmentFailMsg nameRegExp subject found)), [])
  | aid :: rest, found =>
    match p.getAttachmentMetaData aid emailId with
    | .error e => (.error e, [.getAttachmentMetaCall aid emailId])
    | .ok meta =>
      if nameMatch meta.name nameRegExp then (.ok (), [.getAttachmentMetaCall aid emailId])
      else
        let tail := attachmentLoop p nameMatch emailId subject nameRegExp rest
          (found ++ [meta.name])
        (tail.1, .getAttachmentMetaCall aid emailId :: tail.2)

/-- `seeEmailAttachment(nameRegExp)`. -/
def seeEmailAttachment (p : Provider) (nameMatch : String → String → Bool)
    (st : HelperState) (nameRegExp : String) : Except Err Unit × List RpcCall :=
  match st.currentEmail with
  | none => (.error .noOpenMessage, [])
  | some email =>
    attachmentLoop p nameMatch email.id email.subject nameRegExp email.attachments []

/-! Concrete fixtures used by the closed witness and counterexample
theorems; values mirror the mocks of `src/tests/index.spec.ts`. -/

def sampleInbox : Inbox := ⟨"123", "hello@test.de"⟩

def sampleEmail : Email :=
  ⟨"email-id", "Hello Test", "Testing", "hello@test.de", ["att-1", "att-2"]⟩

def sampleConfig : Config := mkConfig none none

def sampleState : HelperState := ⟨sampleConfig, [sampleInbox], some sampleInbox, none⟩

def sampleProvider : Provider :=
  ⟨.ok sampleInbox,
   fun _ => .ok sampleInbox,
   fun _ => .ok (),
   fun _ _ => .ok sampleEmail,
   fun _ _ _ _ => .ok [⟨"email-id"⟩],
   fun _ _ _ => .ok sampleEmail,
   fun _ => .ok [⟨"email-id"⟩],
   fun _ => .ok sampleEmail,
   fun _ _ => .ok ⟨"README.md"⟩⟩

/-- A provider whose matching-wait resolves with an empty preview array. -/
def emptyMatchProvider : Provider :=
  { sampleProvider with waitForMatchingEmails := fun _ _ _ _ => .ok [] }

/-- A provider whose deletion of inbox "a" rejects while every other
deletion resolves. -/
def failingDeleteProvider : Provider :=
  { sampleProvider with
    deleteInbox := fun i => if i = "a" then .error (.providerError "boom") else .ok () }

/-- A fixture state holding two recorded mailboxes and an opened email. -/
def twoBoxState : HelperState :=
  ⟨sampleConfig, [⟨"a", "a@x.de"⟩, ⟨"b", "b@x.de"⟩], some ⟨"a", "a@x.de"⟩, some sampleEmail⟩

/-! Helper lemmas. -/

theorem isPrefixOf_append_self (n t : List Char) : n.isPrefixOf (n ++ t) = true := by
  induction n with
  | nil => simp [List.isPrefixOf]
  | cons c cs ih => simp [List.isPrefixOf, ih]

theorem hasSubList_nil_needle (l : List Char) : hasSubList [] l = true := by
  cases l <;> simp [hasSubList, List.isPrefixOf, List.isEmpty]

theorem hasSubList_append (pre n suf : List Char) :
    hasSubList n (pre ++ n ++ suf) = true := by
  induction pre with
  | nil =>
    cases n with
    | nil => simp only [List.nil_append]; exact hasSubList_nil_needle suf
    | cons c cs =>
      simp only [List.nil_append, List.cons_append, hasSubList, Bool.or_eq_true]
      left
      have h1 := isPrefixOf_append_self (c :: cs) suf
      simp only [List.cons_append] at h1
      simp [List.append_eq, h1]
  | cons c cs ih =>
    simp only [List.cons_append, hasSubList, Bool.or_eq_true]
    right
    simpa [List.append_eq] using ih

theorem hasSubList_of_decomp (n h pre suf : List Char) (hh : h = pre ++ (n ++ suf)) :
    hasSubList n h = true := by
  subst hh
  simpa using hasSubList_append pre n suf

theorem joinComma_decomp (x : String) (l : List String) (hx : x ∈ l) :
    ∃ a b, (joinComma l).data = a ++ (x.data ++ b) := by
  induction l with
  | nil => cases hx
  | cons y rest ih =>
    cases rest with
    | nil =>
      have hxy : x = y := by simpa using hx
      subst hxy
      exact ⟨[], [], by simp [joinComma]⟩
    | cons z rest2 =>
      rcases List.mem_cons.mp hx with h | h
      · subst h
        exact ⟨[], (",").data ++ (joinComma (z :: rest2)).data,
          by simp [joinComma, String.data_append]⟩
      · obtain ⟨a, b, hab⟩ := ih h
        refine ⟨y.data ++ (",").data ++ a, b, ?_⟩
        simp [joinComma, String.data_append, hab]

theorem firstErr_eq_none_iff (l : List (Except Err Unit)) :
    firstErr l = none ↔ ∀ x ∈ l, x = .ok () := by
  induction l with
  | nil => simp [firstErr]
  | cons x rest ih =>
    cases x with
    | error e => simp [firstErr]
    | ok u => cases u; simp [firstErr, ih]

theorem resolveTimeout_none (c : Nat) : resolveTimeout none c = c := rfl

theorem resolveTimeout_zero (c : Nat) : resolveTimeout (some 0) c = c := rfl

theorem resolveTimeout_pos (s c : Nat) (h : s ≠ 0) :
    resolveTimeout (some s) c = 1000 * s := by
  simp [resolveTimeout, h]

theorem waitForLatestEmail_calls (p : Provider) (st : HelperState) (mb : Inbox)
    (sec : Option Nat) (hmb : st.currentMailbox = some mb) :
    (waitForLatestEmail p st sec).2.2 =
      [.waitLatestCall mb.id (resolveTimeout sec st.config.timeout)] := by
  unfold waitForLatestEmail
  rw [hmb]
  cases h : p.waitForLatestEmail mb.id (resolveTimeout sec st.config.timeout) <;> simp [h]

theorem waitForNthEmail_calls (p : Provider) (st : HelperState) (mb : Inbox)
    (number : Nat) (sec : Option Nat) (hmb : st.currentMailbox = some mb) :
    (waitForNthEmail p st number sec).2.2 =
      [.waitNthCall mb.id number (resolveTimeout sec st.config.timeout)] := by
  unfold waitForNthEmail
  rw [hmb]
  cases h : p.waitForNthEmail mb.id number (resolveTimeout sec st.config.timeout) <;> simp [h]

theorem waitForEmailMatching_calls_head (p : Provider) (st : HelperState) (mb : Inbox)
    (q : List (String × String)) (sec : Option Nat) (hmb : st.currentMailbox = some mb) :
    (waitForEmailMatching p st q sec).2.2.head? =
      some (.waitMatchingCall (matchEmailBy q) 1 mb.id
        (resolveTimeout sec st.config.timeout)) := by
  unfold waitForEmailMatching
  rw [hmb]
  cases h : p.waitForMatchingEmails (matchEmailBy q) 1 mb.id
      (resolveTimeout sec st.config.timeout) with
  | error e => simp [h]
  | ok l =>
    cases l with
    | nil => simp [h]
    | cons pv rest => cases h2 : p.getEmail pv.id <;> simp [h, h2]

theorem strContains_failMsg_subject (nameRegExp subject : String) (found : List String) :
    strContains (attachmentFailMsg nameRegExp subject found) subject = true := by
  show hasSubList subject.data (attachmentFailMsg nameRegExp subject found).data = true
  refine hasSubList_of_decomp _ _
    (("Attachment with name \"").data ++ nameRegExp.data
      ++ ("\" not found in e-mail with subject \"").data)
    (("\".").data
      ++ (if found.length > 0 then
            " Found attachments: \"" ++ joinComma found ++ "\""
          else " No attachments found at all in e-mail.").data) ?_
  simp [attachmentFailMsg, String.data_append, List.append_assoc]

theorem strContains_failMsg_name (nameRegExp subject x : String) (found : List String)
    (hx : x ∈ found) :
    strContains (attachmentFailMsg nameRegExp subject found) x = true := by
  obtain ⟨a, b, hab⟩ := joinComma_decomp x found hx
  have hlen : found.length > 0 := List.length_pos.mpr (by rintro rfl; cases hx)
  show hasSubList x.data (attachmentFailMsg nameRegExp subject found).data = true
  refine hasSubList_of_decomp _ _
    (("Attachment with name \"").data ++ nameRegExp.data
      ++ ("\" not found in e-mail with subject \"").data ++ subject.data
      ++ ("\".").data ++ (" Found attachments: \"").data ++ a)
    (b ++ ("\"").data) ?_
  simp [attachmentFailMsg, hlen, String.data_append, List.append_assoc, hab]

theorem attachmentLoop_all_fail (p : Provider) (nameMatch : String → String → Bool)
    (emailId subject nameRegExp : String) (metaOf : String → AttachmentMeta)
    (ids found : List String)
    (hmeta : ∀ x ∈ ids, p.getAttachmentMetaData x emailId = .ok (metaOf x))
    (hfail : ∀ x ∈ ids, nameMatch (metaOf x).name nameRegExp = false) :
    attachmentLoop p nameMatch emailId subject nameRegExp ids found =
      (.error (.assertionFailed (attachmentFailMsg nameRegExp subject
          (found ++ ids.map fun x => (metaOf x).name))),
       ids.map fun x => .getAttachmentMetaCall x emailId) := by
  induction ids generalizing found with
  | nil => simp [attachmentLoop]
  | cons aid rest ih =>
    have h1 := hmeta aid (by simp)
    have h2 := hfail aid (by simp)
    simp only [attachmentLoop, h1, h2, List.append_eq]
    rw [ih (found ++ [(metaOf aid).name])
        (fun x hx => hmeta x (List.mem_cons_of_mem aid hx))
        (fun x hx => hfail x (List.mem_cons_of_mem aid hx))]
    simp

theorem attachmentLoop_finds (p : Provider) (nameMatch : String → String → Bool)
    (emailId subject nameRegExp : String) (metaOf : String → AttachmentMeta)
    (pre : List String) (a : String) (post : List String) (found : List String)
    (hmeta : ∀ x ∈ pre ++ a :: post, p.getAttachmentMetaData x emailId = .ok (metaOf x))
    (hfail : ∀ x ∈ pre, nameMatch (metaOf x).name nameRegExp = false)
    (hhit : nameMatch (metaOf a).name nameRegExp = true) :
    attachmentLoop p nameMatch emailId subject nameRegExp (pre ++ a :: post) found =
      (.ok (), (pre ++ [a]).map fun x => .getAttachmentMetaCall x emailId) := by
  induction pre generalizing found with
  | nil =>
    have h1 := hmeta a (by simp)
    simp [attachmentLoop, h1, hhit]
  | cons b rest ih =>
    have h1 := hmeta b (by simp)
    have h2 := hfail b (by simp)
    simp only [List.cons_append, attachmentLoop, h1, h2, List.append_eq]
    rw [ih (found ++ [(metaOf b).name])
        (fun x hx => hmeta x (List.mem_cons_of_mem b hx))
        (fun x hx => hfail x (List.mem_cons_of_mem b hx))]
    simp

theorem grabEmailsMatching_state (p : Provider) (st : HelperState)
    (q : List (String × String)) (num : Nat) :
    (grabEmailsMatching p st q num).2.1 = st := by
  unfold grabEmailsMatching
  cases h : st.currentMailbox with
  | none => rfl
  | some mb =>
    cases h2 : p.waitForMatchingEmails (matchEmailBy q) num mb.id st.config.timeout <;>
      simp [h2]

theorem grabAllEmailsFromMailbox_state (p : Provider) (st : HelperState) :
    (grabAllEmailsFromMailbox p st).2.1 = st := by
  unfold grabAllEmailsFromMailbox
  cases h : st.currentMailbox with
  | none => rfl
  | some mb =>
    cases h2 : p.getEmails mb.id <;> simp [h2]

theorem matchEmailBy_zip (q : List (String × String)) :
    ∀ pair ∈ (matchEmailBy q).matches_.zip q,
      pair.1.field = strToUpper pair.2.1 ∧ pair.1.value = pair.2.2 ∧
      pair.1.should =
        (if pair.2.2.data.head? = some '=' then "EQUAL" else "CONTAIN") := by
  induction q with
  | nil => intro pair hp; simp [matchEmailBy] at hp
  | cons kv rest ih =>
    intro pair hp
    simp only [matchEmailBy, List.map_cons, List.zip_cons_cons, List.mem_cons] at hp
    rcases hp with hp | hp
    · subst hp
      by_cases h : kv.2.data.head? = some '='
      · simp [h]
      · simp [h]
    · exact ih pair (by simpa [matchEmailBy] using hp)

/-- Claim C1 (amended): for every query with at least one field, the translation
produces exactly one match rule per field, in the insertion order of the query;
each rule has the field name upper-cased, the rule kind is the string EQUAL
exactly when the first character of the value is the character `=` and the
string CONTAIN (not CONTAINS) otherwise, and in the EQUAL case the emitted
value is the original value with the leading `=` retained, not stripped. -/
theorem C1_translate_rules (q : List (String × String)) (_hq : q ≠ []) :
    (matchEmailBy q).matches_.length = q.length ∧
    ∀ pair ∈ (matchEmailBy q).matches_.zip q,
      pair.1.field = strToUpper pair.2.1 ∧
      pair.1.value = pair.2.2 ∧
      pair.1.should =
        (if pair.2.2.data.head? = some '=' then "EQUAL" else "CONTAIN") := by
  refine ⟨?_, matchEmailBy_zip q⟩
  cases hq2 : q <;> simp [matchEmailBy]

/-- Witness for Claim C1: the amended theorem evaluated at the two-field query
subject = (equals) Hi, from contains user. -/
theorem C1_translate_rules_witness :
    (([("subject", "=Hi"), ("from", "user")] : List (String × String)) ≠ []) ∧
    ((matchEmailBy [("subject", "=Hi"), ("from", "user")]).matches_.length =
      ([("subject", "=Hi"), ("from", "user")] : List (String × String)).length ∧
     ∀ pair ∈ (matchEmailBy [("subject", "=Hi"), ("from", "user")]).matches_.zip
         [("subject", "=Hi"), ("from", "user")],
       pair.1.field = strToUpper pair.2.1 ∧ pair.1.value = pair.2.2 ∧
       pair.1.should =
         (if pair.2.2.data.head? = some '=' then "EQUAL" else "CONTAIN")) :=
  ⟨by decide, C1_translate_rules [("subject", "=Hi"), ("from", "user")] (by decide)⟩

/-- Claim C1 counterexample: at the concrete one-field query subject, value hi,
the emitted rule kind is the string CONTAIN, not CONTAINS as the claim states. -/
theorem C1_contains_cex :
    (matchEmailBy [("subject", "hi")]).matches_ = [⟨"SUBJECT", "hi", "CONTAIN"⟩] ∧
    (matchEmailBy [("subject", "hi")]).matches_ ≠ [⟨"SUBJECT", "hi", "CONTAINS"⟩] := by
  exact ⟨by decide, by decide⟩

/-- Claim C2 (amended): translating the empty query does not fail: it succeeds
with an empty rule list, and the matching wait forwards exactly that empty
match specification to the provider wait operation. -/
theorem C2_empty_query (p : Provider) (st : HelperState) (mb : Inbox) (sec : Option Nat)
    (hmb : st.currentMailbox = some mb) :
    matchEmailBy [] = ⟨[]⟩ ∧
    (waitForEmailMatching p st [] sec).2.2.head? =
      some (.waitMatchingCall ⟨[]⟩ 1 mb.id (resolveTimeout sec st.config.timeout)) := by
  refine ⟨rfl, ?_⟩
  have h := waitForEmailMatching_calls_head p st mb [] sec hmb
  simpa [matchEmailBy] using h

/-- Witness for Claim C2: the amended theorem evaluated at the sample fixture. -/
theorem C2_empty_query_witness :
    sampleState.currentMailbox = some sampleInbox ∧
    (matchEmailBy [] = ⟨[]⟩ ∧
     (waitForEmailMatching sampleProvider sampleState [] none).2.2.head? =
       some (.waitMatchingCall ⟨[]⟩ 1 sampleInbox.id
         (resolveTimeout none sampleState.config.timeout))) :=
  ⟨rfl, C2_empty_query sampleProvider sampleState sampleInbox none rfl⟩

/-- Claim C2 counterexample: at the concrete empty query the translation
produces a match specification (the empty rule list) that is forwarded to the
provider wait operation, instead of failing with an InvalidQuery error. -/
theorem C2_empty_query_cex :
    matchEmailBy [] = ⟨[]⟩ ∧
    (waitForEmailMatching sampleProvider sampleState [] none).2.2.head? =
      some (.waitMatchingCall ⟨[]⟩ 1 "123" 10000) := by
  exact ⟨rfl, rfl⟩

theorem after_eq (p : Provider) (st : HelperState)
    (hne : st.mailboxes.isEmpty = false) :
    _after p st =
      (match firstErr (st.mailboxes.map fun m => p.deleteInbox m.id) with
        | some e => (.error e, st, st.mailboxes.map fun m => RpcCall.deleteInboxCall m.id)
        | none => (.ok (), ⟨st.config, [], none, none⟩,
            st.mailboxes.map fun m => RpcCall.deleteInboxCall m.id)) := by
  unfold _after
  rw [hne]
  simp

/-- Claim C3 (amended): when After runs with k (at least 1) recorded mailboxes
it attempts exactly k delete calls, one per recorded mailbox in order,
regardless of individual failures; when every deletion succeeds the fixture
state is emptied; when any deletion fails the error propagates and the fixture
state is left unchanged — in particular it is NOT emptied. -/
theorem C3_after_cleanup (p : Provider) (st : HelperState) (h : st.mailboxes ≠ []) :
    (_after p st).2.2 = st.mailboxes.map (fun m => .deleteInboxCall m.id) ∧
    ((∀ m ∈ st.mailboxes, p.deleteInbox m.id = .ok ()) →
      (_after p st).1 = .ok () ∧ (_after p st).2.1 = ⟨st.config, [], none, none⟩) ∧
    ((∃ m ∈ st.mailboxes, p.deleteInbox m.id ≠ .ok ()) →
      (_after p st).2.1 = st ∧ ∃ e, (_after p st).1 = .error e) := by
  have hne : st.mailboxes.isEmpty = false := by
    cases hm : st.mailboxes with
    | nil => exact absurd hm h
    | cons a l => rfl
  rw [after_eq p st hne]
  cases hfe : firstErr (st.mailboxes.map fun m => p.deleteInbox m.id) with
  | none =>
    refine ⟨rfl, fun _ => ⟨rfl, rfl⟩, ?_⟩
    rintro ⟨m, hm, hne2⟩
    exact absurd ((firstErr_eq_none_iff _).mp hfe _ (List.mem_map_of_mem _ hm)) hne2
  | some e =>
    refine ⟨rfl, ?_, fun _ => ⟨rfl, ⟨e, rfl⟩⟩⟩
    intro hall
    exfalso
    have hnone : firstErr (st.mailboxes.map fun m => p.deleteInbox m.id) = none := by
      refine (firstErr_eq_none_iff _).mpr ?_
      intro x hx
      obtain ⟨m, hm, rfl⟩ := List.mem_map.mp hx
      exact hall m hm
    rw [hfe] at hnone
    cases hnone

/-- Witness for Claim C3: the amended theorem at the sample fixture, whose one
recorded mailbox deletes successfully. -/
theorem C3_after_cleanup_witness :
    sampleState.mailboxes ≠ [] ∧
    ((_after sampleProvider sampleState).2.2 =
      sampleState.mailboxes.map (fun m => .deleteInboxCall m.id) ∧
     ((∀ m ∈ sampleState.mailboxes, sampleProvider.deleteInbox m.id = .ok ()) →
       (_after sampleProvider sampleState).1 = .ok () ∧
       (_after sampleProvider sampleState).2.1 = ⟨sampleState.config, [], none, none⟩) ∧
     ((∃ m ∈ sampleState.mailboxes, sampleProvider.deleteInbox m.id ≠ .ok ()) →
       (_after sampleProvider sampleState).2.1 = sampleState ∧
       ∃ e, (_after sampleProvider sampleState).1 = .error e)) :=
  ⟨by decide, C3_after_cleanup sampleProvider sampleState (by decide)⟩

/-- Claim C3 counterexample: with two recorded mailboxes and a provider whose
deletion of mailbox a rejects, After attempts both delete calls but the fixture
state afterwards is NOT empty: mailboxes, current mailbox and current email are
all left as they were. -/
theorem C3_after_cex :
    (_after failingDeleteProvider twoBoxState).2.2.length = 2 ∧
    (_after failingDeleteProvider twoBoxState).2.1 = twoBoxState ∧
    twoBoxState.mailboxes ≠ [] ∧
    twoBoxState.currentEmail ≠ none ∧
    (_after failingDeleteProvider twoBoxState).1 = .error (.providerError "boom") :=
  ⟨rfl, rfl, by decide, by decide, rfl⟩

/-- Claim C4 (amended): for each wait operation, when no explicit wait time is
passed the timeout forwarded to the provider equals the configured fixture
default (10000 ms under the default configuration), and when a positive
explicit wait time of sec whole seconds is passed the forwarded timeout equals
exactly sec * 1000 milliseconds, with no rounding artifacts; an explicit wait
time of 0 instead falls back to the configured default. -/
theorem C4_timeout_conversion (p : Provider) (st : HelperState) (mb : Inbox)
    (number sec : Nat) (q : List (String × String))
    (hmb : st.currentMailbox = some mb) (hsec : 1 ≤ sec) :
    (mkConfig none none).timeout = 10000 ∧
    (waitForLatestEmail p st none).2.2 = [.waitLatestCall mb.id st.config.timeout] ∧
    (waitForNthEmail p st number none).2.2 =
      [.waitNthCall mb.id number st.config.timeout] ∧
    (waitForEmailMatching p st q none).2.2.head? =
      some (.waitMatchingCall (matchEmailBy q) 1 mb.id st.config.timeout) ∧
    (waitForLatestEmail p st (some sec)).2.2 = [.waitLatestCall mb.id (sec * 1000)] ∧
    (waitForNthEmail p st number (some sec)).2.2 =
      [.waitNthCall mb.id number (sec * 1000)] ∧
    (waitForEmailMatching p st q (some sec)).2.2.head? =
      some (.waitMatchingCall (matchEmailBy q) 1 mb.id (sec * 1000)) := by
  have hz : sec ≠ 0 := Nat.one_le_iff_ne_zero.mp hsec
  have hpos := resolveTimeout_pos sec st.config.timeout hz
  have hmul : 1000 * sec = sec * 1000 := Nat.mul_comm 1000 sec
  refine ⟨rfl, ?_, ?_, ?_, ?_, ?_, ?_⟩
  · simpa [resolveTimeout_none] using waitForLatestEmail_calls p st mb none hmb
  · simpa [resolveTimeout_none] using waitForNthEmail_calls p st mb number none hmb
  · simpa [resolveTimeout_none] using waitForEmailMatching_calls_head p st mb q none hmb
  · simpa [hpos, hmul] using waitForLatestEmail_calls p st mb (some sec) hmb
  · simpa [hpos, hmul] using waitForNthEmail_calls p st mb number (some sec) hmb
  · simpa [hpos, hmul] using waitForEmailMatching_calls_head p st mb q (some sec) hmb

/-- Witness for Claim C4: the amended theorem at the sample fixture with an
explicit wait time of 30 seconds. -/
theorem C4_timeout_conversion_witness :
    sampleState.currentMailbox = some sampleInbox ∧ (1 ≤ 30) ∧
    ((mkConfig none none).timeout = 10000 ∧
     (waitForLatestEmail sampleProvider sampleState none).2.2 =
       [.waitLatestCall sampleInbox.id sampleState.config.timeout] ∧
     (waitForNthEmail sampleProvider sampleState 2 none).2.2 =
       [.waitNthCall sampleInbox.id 2 sampleState.config.timeout] ∧
     (waitForEmailMatching sampleProvider sampleState [("subject", "Hello")] none).2.2.head? =
       some (.waitMatchingCall (matchEmailBy [("subject", "Hello")]) 1 sampleInbox.id
         sampleState.config.timeout) ∧
     (waitForLatestEmail sampleProvider sampleState (some 30)).2.2 =
       [.waitLatestCall sampleInbox.id (30 * 1000)] ∧
     (waitForNthEmail sampleProvider sampleState 2 (some 30)).2.2 =
       [.waitNthCall sampleInbox.id 2 (30 * 1000)] ∧
     (waitForEmailMatching sampleProvider sampleState [("subject", "Hello")] (some 30)).2.2.head? =
       some (.waitMatchingCall (matchEmailBy [("subject", "Hello")]) 1 sampleInbox.id
         (30 * 1000))) :=
  ⟨rfl, by decide,
    C4_timeout_conversion sampleProvider sampleState sampleInbox 2 30
      [("subject", "Hello")] rfl (by decide)⟩

/-- Claim C4 counterexample: at an explicit wait time of 0 seconds the timeout
forwarded to the provider is the configured default 10000, not 0 * 1000 = 0 as
the claim requires for every explicit whole-second wait time. -/
theorem C4_zero_sec_cex :
    (waitForLatestEmail sampleProvider sampleState (some 0)).2.2 =
      [.waitLatestCall "123" 10000] ∧
    (0 * 1000 : Nat) ≠ 10000 :=
  ⟨rfl, by decide⟩

/-- Claim C9: for each wait operation an explicit wait time of 0 seconds is
indistinguishable from passing no wait time: the whole operation result
(outcome, post-state and provider calls) coincides, and under the default
configuration the resolved timeout is 10000 ms, not 0. -/
theorem C9_zero_sec_default (p : Provider) (st : HelperState) (number : Nat)
    (q : List (String × String)) :
    waitForLatestEmail p st (some 0) = waitForLatestEmail p st none ∧
    waitForEmailMatching p st q (some 0) = waitForEmailMatching p st q none ∧
    waitForNthEmail p st number (some 0) = waitForNthEmail p st number none ∧
    resolveTimeout (some 0) (mkConfig none none).timeout = 10000 :=
  ⟨rfl, rfl, rfl, rfl⟩

/-- Claim C5: each single-message wait operation sets currentEmail to the
message it returns, while grabEmailsMatching and grabAllEmailsFromMailbox
leave the whole fixture state (currentEmail, currentMailbox and the
created-mailboxes list) unchanged. -/
theorem C5_current_email_effects (p : Provider) (st : HelperState)
    (q : List (String × String)) (sec : Option Nat) (number num : Nat) :
    (∀ e st2 cs, waitForEmailMatching p st q sec = (.ok e, st2, cs) →
      st2.currentEmail = some e) ∧
    (∀ e st2 cs, waitForNthEmail p st number sec = (.ok e, st2, cs) →
      st2.currentEmail = some e) ∧
    (∀ e st2 cs, waitForLatestEmail p st sec = (.ok e, st2, cs) →
      st2.currentEmail = some e) ∧
    (grabEmailsMatching p st q num).2.1 = st ∧
    (grabAllEmailsFromMailbox p st).2.1 = st := by
  refine ⟨?_, ?_, ?_, grabEmailsMatching_state p st q num,
    grabAllEmailsFromMailbox_state p st⟩
  · intro e st2 cs h
    unfold waitForEmailMatching at h
    split at h
    · simp at h
    · split at h
      · simp at h
      · simp at h
      · split at h
        · simp at h
        · simp only [Prod.mk.injEq] at h
          obtain ⟨h1, h2, h3⟩ := h
          injection h1 with h1
          subst h1
          subst h2
          rfl
  · intro e st2 cs h
    unfold waitForNthEmail at h
    split at h
    · simp at h
    · split at h
      · simp at h
      · simp only [Prod.mk.injEq] at h
        obtain ⟨h1, h2, h3⟩ := h
        injection h1 with h1
        subst h1
        subst h2
        rfl
  · intro e st2 cs h
    unfold waitForLatestEmail at h
    split at h
    · simp at h
    · split at h
      · simp at h
      · simp only [Prod.mk.injEq] at h
        obtain ⟨h1, h2, h3⟩ := h
        injection h1 with h1
        subst h1
        subst h2
        rfl

/-- Witness for Claim C5: at the sample fixture the matching wait succeeds and
the post-state has the returned email opened as current. -/
theorem C5_current_email_effects_witness :
    ((waitForEmailMatching sampleProvider sampleState [("subject", "Hello")]
        none).2.1).currentEmail = some sampleEmail :=
  (C5_current_email_effects sampleProvider sampleState [("subject", "Hello")]
      none 2 1).1 sampleEmail
    (waitForEmailMatching sampleProvider sampleState [("subject", "Hello")] none).2.1
    (waitForEmailMatching sampleProvider sampleState [("subject", "Hello")] none).2.2
    rfl

/-- Claim C6: calling any content assertion while currentEmail is unset fails
with the NoOpenMessage error; the outcome is the same for every provider, regex
engine and argument (no message field can influence it), and the attachment
assertion issues no provider call at all. -/
theorem C6_no_open_message (st : HelperState) (p : Provider)
    (nameMatch : String → String → Bool) (text : String) (number : Nat)
    (h : st.currentEmail = none) :
    _hasCurrentEmail st = .error .noOpenMessage ∧
    seeInEmailSubject st text = .error .noOpenMessage ∧
    dontSeeInEmailSubject st text = .error .noOpenMessage ∧
    seeInEmailBody st text = .error .noOpenMessage ∧
    dontSeeInEmailBody st text = .error .noOpenMessage ∧
    seeEmailIsFrom st text = .error .noOpenMessage ∧
    seeEmailSubjectEquals st text = .error .noOpenMessage ∧
    dontSeeEmailSubjectEquals st text = .error .noOpenMessage ∧
    seeNumberOfEmailAttachments st number = .error .noOpenMessage ∧
    seeEmailAttachment p nameMatch st text = (.error .noOpenMessage, []) := by
  unfold _hasCurrentEmail seeInEmailSubject dontSeeInEmailSubject seeInEmailBody
    dontSeeInEmailBody seeEmailIsFrom seeEmailSubjectEquals dontSeeEmailSubjectEquals
    seeNumberOfEmailAttachments seeEmailAttachment
  rw [h]
  exact ⟨rfl, rfl, rfl, rfl, rfl, rfl, rfl, rfl, rfl, rfl⟩

/-- Witness for Claim C6: the theorem at the sample fixture state, which has no
opened email. -/
theorem C6_no_open_message_witness :
    sampleState.currentEmail = none ∧
    (_hasCurrentEmail sampleState = .error .noOpenMessage ∧
     seeInEmailSubject sampleState "Hello" = .error .noOpenMessage ∧
     dontSeeInEmailSubject sampleState "Hello" = .error .noOpenMessage ∧
     seeInEmailBody sampleState "Hello" = .error .noOpenMessage ∧
     dontSeeInEmailBody sampleState "Hello" = .error .noOpenMessage ∧
     seeEmailIsFrom sampleState "Hello" = .error .noOpenMessage ∧
     seeEmailSubjectEquals sampleState "Hello" = .error .noOpenMessage ∧
     dontSeeEmailSubjectEquals sampleState "Hello" = .error .noOpenMessage ∧
     seeNumberOfEmailAttachments sampleState 1 = .error .noOpenMessage ∧
     seeEmailAttachment sampleProvider (fun _ _ => true) sampleState "Hello" =
       (.error .noOpenMessage, [])) :=
  ⟨rfl, C6_no_open_message sampleState sampleProvider (fun _ _ => true) "Hello" 1 rfl⟩

/-- Claim C7: haveExistingMailbox fails with the MissingParameter error when
the given id is absent or empty, without any provider call; with a nonempty id
it fetches the inbox from the provider, records it in the created-mailboxes
list (so a later After attempts its deletion) and sets it as the current
mailbox. -/
theorem C7_have_existing (p : Provider) (st : HelperState) :
    (∀ mid, falsyStr mid = true →
      haveExistingMailbox p st mid = (.error .missingParameter, st, [])) ∧
    (∀ s inbox, s ≠ "" → p.getInbox s = .ok inbox →
      haveExistingMailbox p st (some s) =
        (.ok inbox, ⟨st.config, st.mailboxes ++ [inbox], some inbox, st.currentEmail⟩,
          [.getInboxCall s]) ∧
      ∀ p2 : Provider,
        RpcCall.deleteInboxCall inbox.id ∈
          (_after p2 ⟨st.config, st.mailboxes ++ [inbox], some inbox,
            st.currentEmail⟩).2.2) := by
  constructor
  · intro mid hm
    unfold haveExistingMailbox
    rw [hm]
    simp
  · intro s inbox hs hget
    have hfal : falsyStr (some s) = false := by
      have hni : ¬ s.isEmpty = true := fun hh => hs ((String.isEmpty_iff s).mp hh)
      simp [falsyStr, Bool.eq_false_iff, hni]
    constructor
    · unfold haveExistingMailbox
      rw [hfal]
      simp [hget]
    · intro p2
      have hne : (⟨st.config, st.mailboxes ++ [inbox], some inbox,
          st.currentEmail⟩ : HelperState).mailboxes.isEmpty = false := by
        simp
      have hmem : RpcCall.deleteInboxCall inbox.id ∈
          (st.mailboxes ++ [inbox]).map (fun m => RpcCall.deleteInboxCall m.id) :=
        List.mem_map_of_mem _ (by simp)
      rw [after_eq p2 _ hne]
      cases hfe : firstErr ((st.mailboxes ++ [inbox]).map fun m => p2.deleteInbox m.id)
      · simp [hmem]
      · simp [hmem]

/-- Witness for Claim C7: both branches of the theorem at the sample fixture:
an empty id is rejected, and a valid id records the fetched inbox whose
deletion is attempted by After. -/
theorem C7_have_existing_witness :
    (haveExistingMailbox sampleProvider sampleState (some "") =
      (.error .missingParameter, sampleState, [])) ∧
    (haveExistingMailbox sampleProvider sampleState (some "94c") =
      (.ok sampleInbox, ⟨sampleState.config, sampleState.mailboxes ++ [sampleInbox],
        some sampleInbox, sampleState.currentEmail⟩, [.getInboxCall "94c"]) ∧
     ∀ p2 : Provider,
       RpcCall.deleteInboxCall sampleInbox.id ∈
         (_after p2 ⟨sampleState.config, sampleState.mailboxes ++ [sampleInbox],
           some sampleInbox, sampleState.currentEmail⟩).2.2) :=
  ⟨(C7_have_existing sampleProvider sampleState).1 (some "") (by decide),
   (C7_have_existing sampleProvider sampleState).2 "94c" sampleInbox (by decide) rfl⟩

/-- Claim C10: waitForEmailMatching always requests exactly one matching
preview (the desired count is fixed at 1) and unconditionally dereferences the
first element of the returned preview list: when the provider resolves with an
empty list the operation fails with the dereference (type) error — a kind
distinct from the Timeout error — and when the list is nonempty the full
message is resolved through the first preview id. -/
theorem C10_matching_first (p : Provider) (st : HelperState) (mb : Inbox)
    (q : List (String × String)) (sec : Option Nat)
    (hmb : st.currentMailbox = some mb) :
    (waitForEmailMatching p st q sec).2.2.head? =
      some (.waitMatchingCall (matchEmailBy q) 1 mb.id
        (resolveTimeout sec st.config.timeout)) ∧
    (p.waitForMatchingEmails (matchEmailBy q) 1 mb.id
        (resolveTimeout sec st.config.timeout) = .ok [] →
      waitForEmailMatching p st q sec =
        (.error .typeError, st,
          [.waitMatchingCall (matchEmailBy q) 1 mb.id
            (resolveTimeout sec st.config.timeout)]) ∧
      Err.typeError ≠ Err.timeoutErr) ∧
    (∀ pv rest, p.waitForMatchingEmails (matchEmailBy q) 1 mb.id
        (resolveTimeout sec st.config.timeout) = .ok (pv :: rest) →
      (waitForEmailMatching p st q sec).2.2 =
        [.waitMatchingCall (matchEmailBy q) 1 mb.id
          (resolveTimeout sec st.config.timeout),
         .getEmailCall pv.id]) := by
  refine ⟨waitForEmailMatching_calls_head p st mb q sec hmb, ?_, ?_⟩
  · intro hempty
    refine ⟨?_, by decide⟩
    unfold waitForEmailMatching
    rw [hmb]
    simp [hempty]
  · intro pv rest hcons
    unfold waitForEmailMatching
    rw [hmb]
    cases hg : p.getEmail pv.id <;> simp [hcons, hg]

/-- Witness for Claim C10: with a provider that resolves the matching wait
with an empty preview array, the operation fails with the dereference error,
not a Timeout. -/
theorem C10_matching_first_witness :
    sampleState.currentMailbox = some sampleInbox ∧
    (emptyMatchProvider.waitForMatchingEmails (matchEmailBy [("subject", "x")]) 1
        sampleInbox.id (resolveTimeout none sampleState.config.timeout) = .ok []) ∧
    (waitForEmailMatching emptyMatchProvider sampleState [("subject", "x")] none =
      (.error .typeError, sampleState,
        [.waitMatchingCall (matchEmailBy [("subject", "x")]) 1 sampleInbox.id
          (resolveTimeout none sampleState.config.timeout)]) ∧
     Err.typeError ≠ Err.timeoutErr) :=
  ⟨rfl, rfl,
    (C10_matching_first emptyMatchProvider sampleState sampleInbox
      [("subject", "x")] none rfl).2.1 rfl⟩

/-- Claim C8: seeEmailAttachment iterates the current email's attachment ids
in order, resolving metadata for each through the provider, and returns
successfully as soon as one resolved attachment name matches the pattern — no
further metadata is resolved after the first match; when no attachment
matches, it fails with an assertion failure whose message contains the subject
of the email searched and every attachment name that was actually found. -/
theorem C8_attachment_search (p : Provider) (nameMatch : String → String → Bool)
    (st : HelperState) (email : Email) (nameRegExp : String)
    (metaOf : String → AttachmentMeta)
    (hcur : st.currentEmail = some email)
    (hmeta : ∀ x ∈ email.attachments,
      p.getAttachmentMetaData x email.id = .ok (metaOf x)) :
    (∀ pre a post, email.attachments = pre ++ a :: post →
      (∀ b ∈ pre, nameMatch (metaOf b).name nameRegExp = false) →
      nameMatch (metaOf a).name nameRegExp = true →
      seeEmailAttachment p nameMatch st nameRegExp =
        (.ok (), (pre ++ [a]).map fun x => .getAttachmentMetaCall x email.id)) ∧
    ((∀ b ∈ email.attachments, nameMatch (metaOf b).name nameRegExp = false) →
      seeEmailAttachment p nameMatch st nameRegExp =
        (.error (.assertionFailed (attachmentFailMsg nameRegExp email.subject
          (email.attachments.map fun x => (metaOf x).name))),
         email.attachments.map fun x => .getAttachmentMetaCall x email.id) ∧
      strContains (attachmentFailMsg nameRegExp email.subject
        (email.attachments.map fun x => (metaOf x).name)) email.subject = true ∧
      ∀ nm ∈ email.attachments.map (fun x => (metaOf x).name),
        strContains (attachmentFailMsg nameRegExp email.subject
          (email.attachments.map fun x => (metaOf x).name)) nm = true) := by
  constructor
  · intro pre a post hsplit hfail hhit
    unfold seeEmailAttachment
    rw [hcur]
    rw [hsplit] at hmeta
    show attachmentLoop p nameMatch email.id email.subject nameRegExp
      email.attachments [] =
      (.ok (), (pre ++ [a]).map fun x => .getAttachmentMetaCall x email.id)
    rw [hsplit]
    exact attachmentLoop_finds p nameMatch email.id email.subject nameRegExp metaOf
      pre a post [] hmeta hfail hhit
  · intro hfail
    refine ⟨?_, strContains_failMsg_subject _ _ _, ?_⟩
    · unfold seeEmailAttachment
      rw [hcur]
      show attachmentLoop p nameMatch email.id email.subject nameRegExp
        email.attachments [] = _
      have hrun := attachmentLoop_all_fail p nameMatch email.id email.subject
        nameRegExp metaOf email.attachments [] hmeta hfail
      simpa using hrun
    · intro nm hnm
      exact strContains_failMsg_name _ _ _ _ hnm

/-- Witness for Claim C8: at the sample fixture with an opened email carrying
two attachment ids and an always-matching pattern, the search succeeds after
resolving only the first attachment's metadata. -/
theorem C8_attachment_search_witness :
    (openEmail sampleState sampleEmail).currentEmail = some sampleEmail ∧
    (sampleEmail.attachments = ([] : List String) ++ "att-1" :: ["att-2"]) ∧
    seeEmailAttachment sampleProvider (fun _ _ => true)
        (openEmail sampleState sampleEmail) "README" =
      (.ok (), (([] : List String) ++ ["att-1"]).map
        fun x => .getAttachmentMetaCall x sampleEmail.id) :=
  ⟨rfl, rfl,
    (C8_attachment_search sampleProvider (fun _ _ => true)
        (openEmail sampleState sampleEmail) sampleEmail "README"
        (fun _ => ⟨"README.md"⟩) rfl (by decide)).1
      [] "att-1" ["att-2"] rfl (by simp) rfl⟩

end MailSlurpHelper
